import Mathlib

/-!
Verification of the job-orchestration core of the multi-agent document
analysis backend (`backend/app/main.py`, `backend/app/services/orchestrator.py`).

The Python code is shallowly embedded: dictionaries become association
lists (`Record`), Python `float` durations become `ℚ`, `round(x, 3)`
becomes `round3`, fallible operations become `Except`, and the
`jobs_store` lifecycle of a single job becomes the inductive `Reachable`
relation over explicit `Job` records.  Agent bodies and the concurrency
runtime are external collaborators; their observable behaviour at the
orchestrator boundary is a `BranchResult` per agent together with a
completion order `σ`.
-/

namespace MultiAgent

/-- JSON-ish field values stored in result records.  Agent payload fields
are treated as opaque by the orchestrator, so scalar constructors
suffice. -/
inductive Value where
  | str (s : String)
  | num (q : ℚ)
  | null
deriving DecidableEq, Repr

/-- A Python dict used as a record: an association list that preserves
insertion order, the way CPython dicts do. -/
abbrev Record := List (String × Value)

/-- Python `d[k] = v`: if `k` is present its value is replaced in place
(keeping its position); otherwise the pair is appended at the end. -/
def setField : Record → String → Value → Record
  | [], k, v => [(k, v)]
  | (k', v') :: rest, k, v =>
      if k' = k then (k, v) :: rest else (k', v') :: setField rest k v

/-- Python `d.get(k)` on a record. -/
def getField : Record → String → Option Value
  | [], _ => none
  | (k', v') :: rest, k => if k' = k then some v' else getField rest k

/-- Python `payload or \x7b\x7d`: a `None` (or absent) payload becomes the
empty record before the timing field is injected. -/
def orEmpty : Option Record → Record
  | none => []
  | some r => r

/-- Python `str` of an optional error: `None` renders as JSON null in the
stored slot. -/
def optStrValue : Option String → Value
  | some s => Value.str s
  | none => Value.null

/-- Python `round(q, 3)` on a duration, over `ℚ`.  (Python floats use
banker's rounding at exact half-millisecond ties; the tie rule is
irrelevant to every property proved below, which only use that `round3`
is idempotent.) -/
def round3 (q : ℚ) : ℚ := ((round (q * 1000) : ℤ) : ℚ) / 1000

/-- `AgentOutcome` dataclass from `services/orchestrator.py`: name,
success flag, opaque payload, recorded duration, optional error text. -/
structure AgentOutcome where
  name : String
  success : Bool
  payload : Option Record
  processing_time_seconds : ℚ
  error : Option String := none
deriving DecidableEq, Repr

/-- `AnalysisOrchestrator._timed` from `services/orchestrator.py`: runs one
agent body and never lets a raised failure escape.  The agent body is
embedded by its result: `Except.ok p` when `await fn(document_text)`
returns payload `p` (possibly `none`, i.e. Python `None`), `Except.error e`
when it raises an exception whose `str` is `e`.  `elapsed` is the measured
wall-clock time of the attempt; the outcome records `round(elapsed, 3)`.
Totality of this function is the embedding of "never propagate the failure
to the caller". -/
def timed (name : String) (result : Except String (Option Record)) (elapsed : ℚ) :
    AgentOutcome :=
  match result with
  | .ok payload =>
      { name := name, success := true, payload := payload,
        processing_time_seconds := round3 elapsed, error := none }
  | .error exc =>
      { name := name, success := false, payload := none,
        processing_time_seconds := round3 elapsed, error := some exc }

/-- What one branch of the `RunnableParallel` fan-out delivers:
either the wrapped agent ran through `_timed` (with its body's result and
measured elapsed time), or the concurrency primitive yielded a
non-`AgentOutcome` value whose `str` is `s` (the defensive
`isinstance` else-branch in `AnalysisOrchestrator.run`). -/
inductive BranchResult where
  | ran (result : Except String (Option Record)) (elapsed : ℚ)
  | crashed (s : String)
deriving Repr

/-- Converts one raw fan-out value to an `AgentOutcome`, combining
`_timed` (which runs inside the branch) with the `isinstance` guard in
`AnalysisOrchestrator.run` (zero duration, stringified value as error). -/
def raw_to_outcome (name : String) : BranchResult → AgentOutcome
  | .ran result elapsed => timed name result elapsed
  | .crashed s =>
      { name := name, success := false, payload := none,
        processing_time_seconds := 0, error := some s }

/-- The configured agents, in the insertion order of the
`RunnableParallel(summary=…, entities=…, sentiment=…)` construction. -/
def agentName : Fin 3 → String
  | 0 => "summary"
  | 1 => "entities"
  | 2 => "sentiment"

/-- The configured agent names as a list, in configuration order. -/
def agentNames : List String := ["summary", "entities", "sentiment"]

/-- The three fan-out branches listed in the order `σ` in which they
happen to complete in a given run: branch `σ k` is the `k`-th to finish. -/
def completions (branches : Fin 3 → BranchResult) (σ : Equiv.Perm (Fin 3)) :
    List (String × BranchResult) :=
  (List.finRange 3).map (fun k => (agentName (σ k), branches (σ k)))

/-- `RunnableParallel.ainvoke`: the result mapping is keyed by the steps
in configuration insertion order, each key bound to the value its branch
delivered, regardless of the completion order `σ` (the runtime joins all
branches and zips results back to the step keys).  The `getD` default is
never reached (`completions_lookup` below). -/
def ainvoke (branches : Fin 3 → BranchResult) (σ : Equiv.Perm (Fin 3)) :
    List (String × BranchResult) :=
  (List.finRange 3).map (fun i =>
    (agentName i,
      ((completions branches σ).lookup (agentName i)).getD (BranchResult.crashed "missing")))

/-- The per-agent entry written into `structured` by
`AnalysisOrchestrator.run`: on success the payload (via `asdict`, empty
record when falsy) with `processing_time_seconds` injected, on failure a
record of exactly `error` and `processing_time_seconds`. -/
def merged_entry (o : AgentOutcome) : Record :=
  if o.success then
    setField (orEmpty o.payload) "processing_time_seconds"
      (Value.num o.processing_time_seconds)
  else
    [("error", optStrValue o.error),
     ("processing_time_seconds", Value.num o.processing_time_seconds)]

/-- `AnalysisOrchestrator.run`: await the fan-out, normalise every raw
value to an `AgentOutcome`, then build the merged `structured` mapping
entry by entry.  Returns `(structured, agent_outcomes)`. -/
def orchestrator_run (branches : Fin 3 → BranchResult) (σ : Equiv.Perm (Fin 3)) :
    List (String × Record) × List (String × AgentOutcome) :=
  let raw_results := ainvoke branches σ
  let agent_outcomes := raw_results.map (fun p => (p.1, raw_to_outcome p.1 p.2))
  let structured := agent_outcomes.map (fun p => (p.1, merged_entry p.2))
  (structured, agent_outcomes)

/-- One job record of `jobs_store` in `main.py` (the fields the
orchestration core reads or writes; timestamps are modelled as rational
instants). -/
structure Job where
  status : String
  results : List (String × Record)
  analysis_started_at : Option ℚ
  analysis_finished_at : Option ℚ
  total_processing_time_seconds : Option ℚ
  agents_completed : Nat
  agents_failed : Nat
  warning : Option String
deriving DecidableEq, Repr

/-- The record `upload_document` in `main.py` installs for a fresh job. -/
def upload_document : Job :=
  { status := "uploaded", results := [],
    analysis_started_at := none, analysis_finished_at := none,
    total_processing_time_seconds := none,
    agents_completed := 0, agents_failed := 0, warning := none }

/-- The `/analyze` endpoint body (`analyze_document` in `main.py`) run at
instant `t` against the job's current record: HTTP 409 when the status is
`processing` or in the set of `completed`/`partial`; otherwise the job is
moved to `processing` with its analysis fields reset.  An `Except.error`
is an `HTTPException (code, detail)` raised before any mutation. -/
def analyze_document (j : Job) (t : ℚ) : Except (Nat × String) Job :=
  if j.status = "processing" then
    .error (409, "Analysis already in progress.")
  else if j.status = "completed" ∨ j.status = "partial" then
    .error (409, "Analysis already completed.")
  else
    .ok { j with
      status := "processing", analysis_started_at := some t, results := [],
      agents_completed := 0, agents_failed := 0, warning := none,
      total_processing_time_seconds := none }

/-- Effect of one `/analyze` call on the stored record: a raised
`HTTPException` leaves the record untouched. -/
def apply_analyze (j : Job) (t : ℚ) : Job :=
  match analyze_document j t with
  | .ok j' => j'
  | .error _ => j

/-- `_mark_job_failed` in `main.py`: terminal failure write at instant
`t` — status `failed`, the same error message in all three agent slots
with zero timing, warning set to the message, counters 0/3, total 0. -/
def mark_job_failed (j : Job) (message : String) (t : ℚ) : Job :=
  { j with
    status := "failed",
    results :=
      [("summary",
        [("error", Value.str message), ("processing_time_seconds", Value.num 0)]),
       ("entities",
        [("error", Value.str message), ("processing_time_seconds", Value.num 0)]),
       ("sentiment",
        [("error", Value.str message), ("processing_time_seconds", Value.num 0)])],
    warning := some message,
    agents_completed := 0,
    agents_failed := 3,
    total_processing_time_seconds := some 0,
    analysis_finished_at := some t }

/-- Python `max(list, default=0.0)`. -/
def maxDefault0 : List ℚ → ℚ
  | [] => 0
  | x :: xs => xs.foldl max x

/-- `_process_job` in `main.py` after the job lookup: `extraction` embeds
`extract_text(job.filepath)` (`Except.error e` when it raises
`UnsupportedDocumentError` or `OSError` with `str` `e`), `branches` and
`σ` feed the orchestrator, `t` is the finishing instant.  Returns the
written job record together with a flag recording whether
`orchestrator.run` was invoked.  (The defensive `except` around
`orchestrator.run` is dead in this model: `orchestrator_run` is total,
matching the §4.2 never-raises contract.) -/
def process_job (j : Job) (extraction : Except String String)
    (branches : Fin 3 → BranchResult) (σ : Equiv.Perm (Fin 3)) (t : ℚ) :
    Job × Bool :=
  match extraction with
  | .error e => (mark_job_failed j ("Document parsing failed: " ++ e) t, false)
  | .ok _text =>
      let res := orchestrator_run branches σ
      let agent_outcomes := res.2
      let agents_completed := (agent_outcomes.filter (fun p => p.2.success)).length
      let agents_failed := agent_outcomes.length - agents_completed
      let status := if agents_failed = 0 then "completed" else "partial"
      let warning :=
        if status = "partial" then
          some "Partial results available - one or more agents failed."
        else none
      let total :=
        maxDefault0 (agent_outcomes.map (fun p => p.2.processing_time_seconds))
      ({ j with
          status := status,
          results := res.1,
          analysis_finished_at := some t,
          total_processing_time_seconds := some (round3 total),
          agents_completed := agents_completed,
          agents_failed := agents_failed,
          warning := warning }, true)

/-- Job records reachable through the lifecycle of `main.py`: created by
`/upload`, moved to `processing` by a successful `/analyze`, finished by
the background `_process_job` (which covers both the extraction-failure
path through `_mark_job_failed` and the orchestration path). -/
inductive Reachable : Job → Prop where
  | upload : Reachable upload_document
  | analyze (j j' : Job) (t : ℚ) :
      Reachable j → analyze_document j t = .ok j' → Reachable j'
  | process (j : Job) (extraction : Except String String)
      (branches : Fin 3 → BranchResult) (σ : Equiv.Perm (Fin 3)) (t : ℚ) :
      Reachable j → Reachable (process_job j extraction branches σ t).1

/-- The HTTP status code of a rejected `/analyze` call, `none` when the
call was accepted. -/
def rejectionCode : Except (Nat × String) Job → Option Nat
  | .error p => some p.1
  | .ok _ => none

/-- Success flag of an embedded agent body. -/
def exceptSuccess : Except String (Option Record) → Bool
  | .ok _ => true
  | .error _ => false

/-- Stringified cause of an embedded agent body, `none` on success. -/
def exceptError : Except String (Option Record) → Option String
  | .ok _ => none
  | .error e => some e

/-- Payload of an embedded agent body, `none` on failure. -/
def exceptPayload : Except String (Option Record) → Option Record
  | .ok p => p
  | .error _ => none

theorem agentName_inj : ∀ a b : Fin 3, agentName a = agentName b → a = b := by decide

theorem agentName_zero : agentName 0 = "summary" := rfl

theorem agentName_one : agentName 1 = "entities" := rfl

theorem agentName_two : agentName 2 = "sentiment" := rfl

theorem finRange_three : List.finRange 3 = [0, 1, 2] := by decide

theorem round3_intCast_div_thousand (n : ℤ) :
    round3 ((n : ℚ) / 1000) = (n : ℚ) / 1000 := by
  unfold round3
  rw [div_mul_cancel₀, round_intCast]
  norm_num

theorem round3_round3 (q : ℚ) : round3 (round3 q) = round3 q :=
  round3_intCast_div_thousand (round (q * 1000))

theorem round3_zero : round3 0 = 0 := by
  unfold round3
  rw [zero_mul, round_zero]
  norm_num

theorem foldl_max_round3 (xs : List ℚ) :
    ∀ x : ℚ, round3 x = x → (∀ q ∈ xs, round3 q = q) →
      round3 (xs.foldl max x) = xs.foldl max x := by
  induction xs with
  | nil => intro x hx _; simpa using hx
  | cons y ys ih =>
      intro x hx h
      have hy : round3 y = y := h y (by simp)
      have hxy : round3 (max x y) = max x y := by
        rcases max_choice x y with hm | hm <;> rw [hm]
        · exact hx
        · exact hy
      simpa using ih (max x y) hxy (fun q hq => h q (by simp [hq]))

theorem maxDefault0_round3 (l : List ℚ) (h : ∀ q ∈ l, round3 q = q) :
    round3 (maxDefault0 l) = maxDefault0 l := by
  cases l with
  | nil => simpa [maxDefault0] using round3_zero
  | cons x xs =>
      exact foldl_max_round3 xs x (h x (by simp)) (fun q hq => h q (by simp [hq]))

theorem timed_duration_round3 (name : String) (result : Except String (Option Record))
    (elapsed : ℚ) :
    round3 (timed name result elapsed).processing_time_seconds
      = (timed name result elapsed).processing_time_seconds := by
  cases result <;> simp [timed, round3_round3]

theorem raw_to_outcome_duration_round3 (name : String) (b : BranchResult) :
    round3 (raw_to_outcome name b).processing_time_seconds
      = (raw_to_outcome name b).processing_time_seconds := by
  cases b with
  | ran result elapsed => exact timed_duration_round3 name result elapsed
  | crashed s => simpa [raw_to_outcome] using round3_zero

theorem completions_lookup (branches : Fin 3 → BranchResult) (σ : Equiv.Perm (Fin 3))
    (i : Fin 3) :
    (completions branches σ).lookup (agentName i) = some (branches i) := by
  rcases (by decide : ∀ k : Fin 3, k = 0 ∨ k = 1 ∨ k = 2) (σ.symm i) with h | h | h
  · have hi : σ 0 = i := by rw [← h]; exact σ.apply_symm_apply i
    simp [completions, finRange_three, List.lookup, hi]
  · have hi : σ 1 = i := by rw [← h]; exact σ.apply_symm_apply i
    have hne : i ≠ σ 0 := by
      intro he
      exact absurd (σ.injective (hi.trans he)) (by decide)
    have hne' : agentName i ≠ agentName (σ 0) := fun heq => hne (agentName_inj _ _ heq)
    simp [completions, finRange_three, List.lookup, hi, beq_eq_false_iff_ne.mpr hne']
  · have hi : σ 2 = i := by rw [← h]; exact σ.apply_symm_apply i
    have hne0 : i ≠ σ 0 := by
      intro he
      exact absurd (σ.injective (hi.trans he)) (by decide)
    have hne1 : i ≠ σ 1 := by
      intro he
      exact absurd (σ.injective (hi.trans he)) (by decide)
    have hne0' : agentName i ≠ agentName (σ 0) := fun heq => hne0 (agentName_inj _ _ heq)
    have hne1' : agentName i ≠ agentName (σ 1) := fun heq => hne1 (agentName_inj _ _ heq)
    simp [completions, finRange_three, List.lookup, hi,
      beq_eq_false_iff_ne.mpr hne0', beq_eq_false_iff_ne.mpr hne1']

theorem ainvoke_eq (branches : Fin 3 → BranchResult) (σ : Equiv.Perm (Fin 3)) :
    ainvoke branches σ =
      [("summary", branches 0), ("entities", branches 1), ("sentiment", branches 2)] := by
  simp [ainvoke, finRange_three, completions_lookup,
    agentName_zero, agentName_one, agentName_two]

theorem orchestrator_run_eq (branches : Fin 3 → BranchResult) (σ : Equiv.Perm (Fin 3)) :
    orchestrator_run branches σ =
      ([("summary", merged_entry (raw_to_outcome "summary" (branches 0))),
        ("entities", merged_entry (raw_to_outcome "entities" (branches 1))),
        ("sentiment", merged_entry (raw_to_outcome "sentiment" (branches 2)))],
       [("summary", raw_to_outcome "summary" (branches 0)),
        ("entities", raw_to_outcome "entities" (branches 1)),
        ("sentiment", raw_to_outcome "sentiment" (branches 2))]) := by
  simp [orchestrator_run, ainvoke_eq]

/-- C3: for every job whose orchestration completes, the
`total_processing_time_seconds` written to the job record equals the
maximum of the per-agent recorded durations over all outcomes (default 0
when there are none) — the `round(·, 3)` applied by `_process_job` is the
identity here because every recorded duration is itself a
`round(·, 3)` value — and never their sum. -/
theorem C3_total_time_is_max_of_durations (j : Job) (text : String)
    (branches : Fin 3 → BranchResult) (σ : Equiv.Perm (Fin 3)) (t : ℚ) :
    (process_job j (Except.ok text) branches σ t).1.total_processing_time_seconds
      = some (maxDefault0
          (((orchestrator_run branches σ).2).map
            (fun p => p.2.processing_time_seconds))) := by
  simp only [process_job]
  congr 1
  apply maxDefault0_round3
  intro q hq
  rw [orchestrator_run_eq] at hq
  simp only [List.map_cons, List.map_nil, List.mem_cons, List.not_mem_nil, or_false] at hq
  rcases hq with h | h | h <;> rw [h] <;> exact raw_to_outcome_duration_round3 _ _

/-- C4: for every document and every subset of the three agents forced to
fail, once `_process_job` finishes, `agents_completed + agents_failed`
equals the configured agent count 3, and the stored status is
`completed` iff `agents_failed = 0`, otherwise `partial`. -/
theorem C4_counts_and_status (j : Job) (text : String)
    (branches : Fin 3 → BranchResult) (σ : Equiv.Perm (Fin 3)) (t : ℚ) :
    ((process_job j (Except.ok text) branches σ t).1.agents_completed
        + (process_job j (Except.ok text) branches σ t).1.agents_failed = 3)
    ∧ ((process_job j (Except.ok text) branches σ t).1.status = "completed"
        ↔ (process_job j (Except.ok text) branches σ t).1.agents_failed = 0)
    ∧ ((process_job j (Except.ok text) branches σ t).1.agents_failed ≠ 0
        → (process_job j (Except.ok text) branches σ t).1.status = "partial") := by
  simp only [process_job, orchestrator_run_eq]
  cases h0 : (raw_to_outcome "summary" (branches 0)).success <;>
    cases h1 : (raw_to_outcome "entities" (branches 1)).success <;>
      cases h2 : (raw_to_outcome "sentiment" (branches 2)).success <;>
        simp [h0, h1, h2, List.filter]

/-- C5: the timed execution wrapper `_timed` never propagates a failure
raised by the agent to its caller (it is a total function into
`AgentOutcome`): on a raised failure it returns success `false`, the
stringified cause as `error`, no payload, and the measured duration; on
success it returns success `true`, the agent's payload, no error, and the
measured duration. -/
theorem C5_timed_never_propagates (name : String)
    (result : Except String (Option Record)) (elapsed : ℚ) :
    (timed name result elapsed).success = exceptSuccess result
    ∧ (timed name result elapsed).error = exceptError result
    ∧ (timed name result elapsed).payload = exceptPayload result
    ∧ (timed name result elapsed).processing_time_seconds = round3 elapsed
    ∧ (timed name result elapsed).name = name := by
  cases result <;> simp [timed, exceptSuccess, exceptError, exceptPayload]

/-- C7: for every job whose document text extraction fails, the job
transitions to `failed` with the identical error message in all three
agent result slots, `processing_time_seconds` 0 in each slot,
`total_processing_time_seconds` 0, `agents_completed` 0 and
`agents_failed` 3, and the orchestrator is never invoked (the invocation
flag of `process_job` is `false`). -/
theorem C7_extraction_failure_fails_job (j : Job) (e : String)
    (branches : Fin 3 → BranchResult) (σ : Equiv.Perm (Fin 3)) (t : ℚ) :
    (process_job j (Except.error e) branches σ t).2 = false
    ∧ (process_job j (Except.error e) branches σ t).1.status = "failed"
    ∧ (process_job j (Except.error e) branches σ t).1.results =
        [("summary",
          [("error", Value.str ("Document parsing failed: " ++ e)),
           ("processing_time_seconds", Value.num 0)]),
         ("entities",
          [("error", Value.str ("Document parsing failed: " ++ e)),
           ("processing_time_seconds", Value.num 0)]),
         ("sentiment",
          [("error", Value.str ("Document parsing failed: " ++ e)),
           ("processing_time_seconds", Value.num 0)])]
    ∧ (process_job j (Except.error e) branches σ t).1.total_processing_time_seconds
        = some 0
    ∧ (process_job j (Except.error e) branches σ t).1.agents_completed = 0
    ∧ (process_job j (Except.error e) branches σ t).1.agents_failed = 3 := by
  simp [process_job, mark_job_failed]

/-- C8: for every run of the orchestrator, the key iteration order of the
merged result mapping and of the outcomes-by-name mapping is exactly the
configuration insertion order `summary`, `entities`, `sentiment`,
independent of the completion order of the three agents (the whole output
is invariant under changing the completion order `σ`). -/
theorem C8_merged_key_order_stable (branches : Fin 3 → BranchResult)
    (σ σ' : Equiv.Perm (Fin 3)) :
    ((orchestrator_run branches σ).1.map Prod.fst = agentNames)
    ∧ ((orchestrator_run branches σ).2.map Prod.fst = agentNames)
    ∧ orchestrator_run branches σ = orchestrator_run branches σ' := by
  refine ⟨?_, ?_, ?_⟩ <;> simp [orchestrator_run_eq, agentNames]

theorem getField_setField (r : Record) (k : String) (v : Value) :
    getField (setField r k v) k = some v := by
  induction r with
  | nil => simp [setField, getField]
  | cons p rest ih =>
      obtain ⟨k', v'⟩ := p
      by_cases h : k' = k <;> simp [setField, getField, h, ih]

theorem merged_entry_has_time (o : AgentOutcome) :
    getField (merged_entry o) "processing_time_seconds"
      = some (Value.num o.processing_time_seconds) := by
  cases h : o.success <;> simp [merged_entry, h, getField_setField, getField]

theorem merged_entry_shape (o : AgentOutcome) :
    (o.success = true
      ∧ merged_entry o = setField (orEmpty o.payload) "processing_time_seconds"
          (Value.num o.processing_time_seconds))
    ∨ (o.success = false
      ∧ merged_entry o = [("error", optStrValue o.error),
          ("processing_time_seconds", Value.num o.processing_time_seconds)]) := by
  cases h : o.success <;> simp [merged_entry, h]

/-- A job that has just been accepted by `/analyze` at instant 0. -/
def processing_job : Job :=
  { upload_document with status := "processing", analysis_started_at := some 0 }

/-- A reachable job whose text extraction failed. -/
def failed_job : Job :=
  (process_job processing_job (Except.error "boom")
    (fun _ => BranchResult.crashed "x") 1 0).1

/-- Fan-out where every branch crashes with stringified cause `boom`. -/
def sample_branches : Fin 3 → BranchResult := fun _ => BranchResult.crashed "boom"

/-- Fan-out where every agent succeeds with a falsy (`None`) payload in
zero time. -/
def empty_payload_branches : Fin 3 → BranchResult :=
  fun _ => BranchResult.ran (Except.ok none) 0

/-- C1 counterexample: the claim is false at a job in the `failed`
state — `/analyze` does not reject it; the call is accepted and the job
record is moved back to `processing`. -/
theorem C1_failed_job_not_rejected :
    rejectionCode (analyze_document { upload_document with status := "failed" } 0) = none
    ∧ (apply_analyze { upload_document with status := "failed" } 0).status
        = "processing" := by
  constructor <;> rfl

/-- C1 amended: triggering `/analyze` on a job whose status is
`processing`, `completed`, or `partial` is rejected with an HTTP 409
conflict and the job record is left unchanged (a job in the `failed`
state is instead accepted for re-analysis). -/
theorem C1_conflict_statuses_rejected_unchanged (j : Job) (t : ℚ)
    (h : j.status = "processing" ∨ j.status = "completed" ∨ j.status = "partial") :
    rejectionCode (analyze_document j t) = some 409 ∧ apply_analyze j t = j := by
  rcases h with h | h | h <;>
    simp [analyze_document, apply_analyze, rejectionCode, h]

theorem C1_conflict_statuses_rejected_unchanged_witness :
    rejectionCode (analyze_document { upload_document with status := "processing" } 0)
        = some 409
    ∧ apply_analyze { upload_document with status := "processing" } 0
        = { upload_document with status := "processing" } :=
  C1_conflict_statuses_rejected_unchanged
    { upload_document with status := "processing" } 0 (Or.inl rfl)

/-- C2 counterexample: a reachable job in the `failed` state carrying a
non-null `warning` (`_mark_job_failed` writes the error message into
`warning`), refuting "warning non-null iff status partial". -/
theorem C2_failed_job_warning_nonnull :
    Reachable failed_job ∧ failed_job.status = "failed" ∧ failed_job.warning ≠ none := by
  refine ⟨?_, rfl, ?_⟩
  · exact Reachable.process processing_job (Except.error "boom")
      (fun _ => BranchResult.crashed "x") 1 0
      (Reachable.analyze upload_document processing_job 0 Reachable.upload rfl)
  · simp [failed_job, process_job, mark_job_failed]

/-- C2 amended: for every reachable job record, `warning` is non-null iff
the status is `partial` or `failed`; jobs in `uploaded`, `processing` or
`completed` state have `warning` null. -/
theorem C2_warning_iff_partial_or_failed (j : Job) (h : Reachable j) :
    j.warning ≠ none ↔ (j.status = "partial" ∨ j.status = "failed") := by
  induction h with
  | upload => simp [upload_document]
  | analyze j j' t hj heq ih =>
      unfold analyze_document at heq
      split_ifs at heq
      injection heq with heq
      subst heq
      simp
  | process j extraction branches σ t hj ih =>
      cases extraction with
      | error e => simp [process_job, mark_job_failed]
      | ok text =>
          simp only [process_job]
          split_ifs <;> simp_all

theorem C2_warning_iff_partial_or_failed_witness :
    upload_document.warning ≠ none
      ↔ (upload_document.status = "partial" ∨ upload_document.status = "failed") :=
  C2_warning_iff_partial_or_failed upload_document Reachable.upload

/-- C6: every entry of the merged result mapping has exactly one of two
shapes, selected by its agent's outcome: on success the agent's payload
fields (empty record when the payload is falsy) with an added
`processing_time_seconds` field equal to the recorded duration; on
failure a record containing exactly the error string and
`processing_time_seconds`. -/
theorem C6_merged_result_shape (branches : Fin 3 → BranchResult)
    (σ : Equiv.Perm (Fin 3)) (n : String) (r : Record) (o : AgentOutcome)
    (hr : (n, r) ∈ (orchestrator_run branches σ).1)
    (ho : (n, o) ∈ (orchestrator_run branches σ).2) :
    (o.success = true
      ∧ r = setField (orEmpty o.payload) "processing_time_seconds"
          (Value.num o.processing_time_seconds))
    ∨ (o.success = false
      ∧ r = [("error", optStrValue o.error),
          ("processing_time_seconds", Value.num o.processing_time_seconds)]) := by
  rw [orchestrator_run_eq] at hr ho
  simp only [List.mem_cons, List.not_mem_nil, or_false, Prod.mk.injEq] at hr ho
  rcases hr with ⟨hn, hr⟩ | ⟨hn, hr⟩ | ⟨hn, hr⟩ <;> subst hn <;> subst hr <;>
    rcases ho with ⟨hn', ho'⟩ | ⟨hn', ho'⟩ | ⟨hn', ho'⟩ <;>
      first
        | (subst ho'; exact merged_entry_shape _)
        | exact absurd hn' (by decide)

theorem C6_merged_result_shape_witness :
    ((raw_to_outcome "summary" (sample_branches 0)).success = true
      ∧ [("error", Value.str "boom"), ("processing_time_seconds", Value.num 0)]
          = setField (orEmpty (raw_to_outcome "summary" (sample_branches 0)).payload)
              "processing_time_seconds"
              (Value.num (raw_to_outcome "summary" (sample_branches 0)).processing_time_seconds))
    ∨ ((raw_to_outcome "summary" (sample_branches 0)).success = false
      ∧ [("error", Value.str "boom"), ("processing_time_seconds", Value.num 0)]
          = [("error", optStrValue (raw_to_outcome "summary" (sample_branches 0)).error),
             ("processing_time_seconds",
               Value.num (raw_to_outcome "summary" (sample_branches 0)).processing_time_seconds)]) :=
  C6_merged_result_shape sample_branches 1 "summary"
    [("error", Value.str "boom"), ("processing_time_seconds", Value.num 0)]
    (raw_to_outcome "summary" (sample_branches 0))
    (by rw [orchestrator_run_eq]; exact List.mem_cons_self _ _)
    (by rw [orchestrator_run_eq]; exact List.mem_cons_self _ _)

/-- C9: for every reachable job record, the results mapping is empty
whenever the status is `uploaded` or `processing`, and contains exactly
one entry per configured agent — the keys `summary`, `entities`,
`sentiment` in order — whenever the status is `completed`, `partial` or
`failed`. -/
theorem C9_results_shape (j : Job) (h : Reachable j) :
    ((j.status = "uploaded" ∨ j.status = "processing") → j.results = [])
    ∧ ((j.status = "completed" ∨ j.status = "partial" ∨ j.status = "failed")
        → j.results.map Prod.fst = agentNames) := by
  induction h with
  | upload => simp [upload_document, agentNames]
  | analyze j j' t hj heq ih =>
      unfold analyze_document at heq
      split_ifs at heq
      injection heq with heq
      subst heq
      simp
  | process j extraction branches σ t hj ih =>
      cases extraction with
      | error e => simp [process_job, mark_job_failed, agentNames]
      | ok text =>
          simp only [process_job, orchestrator_run_eq]
          split_ifs <;> simp_all [agentNames]

theorem C9_results_shape_witness :
    ((upload_document.status = "uploaded" ∨ upload_document.status = "processing")
        → upload_document.results = [])
    ∧ ((upload_document.status = "completed" ∨ upload_document.status = "partial"
          ∨ upload_document.status = "failed")
        → upload_document.results.map Prod.fst = agentNames) :=
  C9_results_shape upload_document Reachable.upload

/-- C10: every entry of the merged result mapping contains the key
`processing_time_seconds`, including the case of a successful agent whose
payload is empty or falsy (the payload is replaced by the empty record
before the timing field is injected). -/
theorem C10_processing_time_always_present (branches : Fin 3 → BranchResult)
    (σ : Equiv.Perm (Fin 3)) (n : String) (r : Record)
    (hr : (n, r) ∈ (orchestrator_run branches σ).1) :
    (getField r "processing_time_seconds").isSome = true := by
  rw [orchestrator_run_eq] at hr
  simp only [List.mem_cons, List.not_mem_nil, or_false, Prod.mk.injEq] at hr
  rcases hr with ⟨_, hr⟩ | ⟨_, hr⟩ | ⟨_, hr⟩ <;> subst hr <;>
    rw [merged_entry_has_time] <;> rfl

theorem C10_processing_time_always_present_witness :
    (getField [("processing_time_seconds", Value.num 0)]
        "processing_time_seconds").isSome = true :=
  C10_processing_time_always_present empty_payload_branches 1 "summary"
    [("processing_time_seconds", Value.num 0)]
    (by
      rw [orchestrator_run_eq]
      simp [empty_payload_branches, raw_to_outcome, timed, merged_entry,
        orEmpty, setField, round3_zero])

end MultiAgent
